import Mathlib

/-!
Shallow embedding of the `doodle` crate (BookOwl/doodle, `src/lib.rs` and
`examples/simple.rs`): a minimal creative-coding sketch runtime consisting of a
configuration builder (`DoodleBuilder`), a sketch runtime (`Doodle`) with a
fixed-rate run loop, and a drawing-surface facade (`Renderer`) over the SDL2
backend.  Rust `u32` configuration values are embedded as `Nat` (the setters and
the builder perform no arithmetic on them), `i16` state values of the example
sketch as `Int` (no intermediate value ever leaves the `i16` range), and the
fallible construction path (`Result<T, Error>`) as `Except Error`.
-/

/-- An RGBA color, embedding `sdl2::pixels::Color`. -/
structure Color where
  r : Nat
  g : Nat
  b : Nat
  a : Nat
deriving DecidableEq, Repr

/-- `Color::RGB(r, g, b)` constructs a fully opaque color. -/
def Color.RGB (r g b : Nat) : Color :=
  ⟨r, g, b, 255⟩

/-- A buffered drawing operation on the backend canvas.  The only drawing
primitive the core facade exposes is `clear`, which fills with the current
draw color. -/
inductive CanvasOp where
  | clearOp : Color → CanvasOp
deriving DecidableEq, Repr

/-- Modelled from the spec: the external SDL2 canvas (`sdl2::render::Canvas`)
is not part of this repository's sources.  Per the spec's facade contract it
holds a current draw color, accumulates drawing operations, and `present`
flushes the accumulated operations to the visible window. -/
structure Canvas where
  drawColor : Color
  pending : List CanvasOp
  presented : List (List CanvasOp)
deriving DecidableEq, Repr

/-- Backend `set_draw_color`: store the current drawing color. -/
def Canvas.set_draw_color (cv : Canvas) (c : Color) : Canvas :=
  { cv with drawColor := c }

/-- Backend `draw_color`: read the current drawing color. -/
def Canvas.draw_color (cv : Canvas) : Color :=
  cv.drawColor

/-- Backend `clear`: fill with the current drawing color (a buffered op). -/
def Canvas.clear (cv : Canvas) : Canvas :=
  { cv with pending := cv.pending ++ [CanvasOp.clearOp cv.drawColor] }

/-- Backend `present`: flush the accumulated operations to the screen. -/
def Canvas.present (cv : Canvas) : Canvas :=
  { cv with pending := [], presented := cv.presented ++ [cv.pending] }

/-- A backend event record.  The run loop reacts only to the quit category
(`Event::Quit {..}`); every other category is matched by the wildcard arm
and is embedded as `other` with an opaque code. -/
inductive Event where
  | quit : Event
  | other : Nat → Event
deriving DecidableEq, Repr

/-- The SDL2 event pump: a queue of already-arrived events, drained
non-blockingly by `poll_iter`. -/
structure EventPump where
  queue : List Event
deriving DecidableEq, Repr

/-- The `Renderer` of `src/lib.rs`: canvas, event pump and TTF context.
The TTF context carries no observable state and is embedded as `Unit`. -/
structure Renderer where
  canvas : Canvas
  pump : EventPump
  ttf_context : Unit
deriving DecidableEq, Repr

/-- `Renderer::set_draw_color`: delegate to the canvas. -/
def Renderer.set_draw_color (r : Renderer) (c : Color) : Renderer :=
  { r with canvas := r.canvas.set_draw_color c }

/-- `Renderer::draw_color`: delegate to the canvas. -/
def Renderer.draw_color (r : Renderer) : Color :=
  r.canvas.draw_color

/-- `Renderer::clear`: delegate to the canvas. -/
def Renderer.clear (r : Renderer) : Renderer :=
  { r with canvas := r.canvas.clear }

/-- `Renderer::present`: delegate to the canvas. -/
def Renderer.present (r : Renderer) : Renderer :=
  { r with canvas := r.canvas.present }

/-- The error enum of `src/lib.rs`.  Each variant carries the underlying
backend diagnostic, embedded as a string. -/
inductive Error where
  | SdlError : String → Error
  | IntegerOrSdlError : String → Error
  | TtfInitError : String → Error
  | FontError : String → Error
  | WindowBuildError : String → Error
  | Error : String → Error
deriving DecidableEq, Repr

/-- A `Handler` is a callback taking the state and the renderer.  The
callback receives `&mut Renderer`, but `Renderer`'s fields are private and
its public methods (`set_draw_color`, `draw_color`, `clear`, `present`)
read and write only the canvas, so every handler constructible outside the
crate factors through a function on the state and the canvas. -/
def Handler (T : Type) : Type :=
  T → Canvas → T × Canvas

/-- Modelled from the spec: the fallible SDL2 initialization steps invoked by
`init_sdl` (`sdl2::init`, `sdl2::image::init`, `video()`, the window builder,
`into_canvas().build()`, `event_pump()`, `sdl2::ttf::init`) are external to
this repository.  Each step's outcome is a parameter; the window builder
receives the configured title, width and height. -/
structure Backend where
  sdl_init : Except Error Unit
  image_init : Except Error Unit
  video : Except Error Unit
  window_build : String → Nat → Nat → Except Error Unit
  canvas_build : Except Error Canvas
  event_pump : Except Error EventPump
  ttf_init : Except Error Unit

/-- `init_sdl`: sequence the backend initialization steps, propagating the
first failure, and return the canvas, event pump and TTF context. -/
def init_sdl (bk : Backend) (app_name : String) (width height : Nat) :
    Except Error (Canvas × EventPump × Unit) := do
  let _ ← bk.sdl_init
  let _ ← bk.image_init
  let _ ← bk.video
  let _ ← bk.window_build app_name width height
  let canvas ← bk.canvas_build
  let event_pump ← bk.event_pump
  let _ ← bk.ttf_init
  Except.ok (canvas, event_pump, ())

/-- `Renderer::new`: wrap the result of `init_sdl`. -/
def Renderer.new (bk : Backend) (app_name : String) (width height : Nat) :
    Except Error Renderer :=
  match init_sdl bk app_name width height with
  | Except.ok (canvas, pump, ttf_context) => Except.ok ⟨canvas, pump, ttf_context⟩
  | Except.error e => Except.error e

/-- The `DoodleBuilder` of `src/lib.rs`: fluent accumulation of name,
dimensions, fps, state, and the two callbacks. -/
structure DoodleBuilder (T : Type) where
  name : String
  width : Nat
  height : Nat
  state : T
  fps : Nat
  setup : Handler T
  draw : Handler T

/-- `DoodleBuilder::new`: the default settings.  `T : Default` is embedded
as `Inhabited T` with `default` the default-constructed value. -/
def DoodleBuilder.new (T : Type) [Inhabited T] : DoodleBuilder T :=
  { name := "Doodle"
    state := default
    fps := 30
    width := 800
    height := 600
    setup := fun s cv => (s, cv)
    draw := fun s cv => (s, cv) }

/-- Setter `name` (named `setName`: `name` is the field projection). -/
def DoodleBuilder.setName {T : Type} (b : DoodleBuilder T) (name : String) :
    DoodleBuilder T :=
  { b with name := name }

/-- Setter `fps`. -/
def DoodleBuilder.setFps {T : Type} (b : DoodleBuilder T) (fps : Nat) :
    DoodleBuilder T :=
  { b with fps := fps }

/-- Setter `width`. -/
def DoodleBuilder.setWidth {T : Type} (b : DoodleBuilder T) (width : Nat) :
    DoodleBuilder T :=
  { b with width := width }

/-- Setter `height`. -/
def DoodleBuilder.setHeight {T : Type} (b : DoodleBuilder T) (height : Nat) :
    DoodleBuilder T :=
  { b with height := height }

/-- Setter `state`. -/
def DoodleBuilder.setState {T : Type} (b : DoodleBuilder T) (state : T) :
    DoodleBuilder T :=
  { b with state := state }

/-- Setter `setup`. -/
def DoodleBuilder.setSetup {T : Type} (b : DoodleBuilder T) (setup : Handler T) :
    DoodleBuilder T :=
  { b with setup := setup }

/-- Setter `draw`. -/
def DoodleBuilder.setDraw {T : Type} (b : DoodleBuilder T) (draw : Handler T) :
    DoodleBuilder T :=
  { b with draw := draw }

/-- The `Doodle` runtime of `src/lib.rs`: state, fps, callbacks, renderer. -/
structure Doodle (T : Type) where
  state : T
  fps : Nat
  setup : Handler T
  draw : Handler T
  renderer : Renderer

/-- `DoodleBuilder::build`: construct the `Renderer` (the `?` on
`Renderer::new`), then hand every configured field to the `Doodle`. -/
def DoodleBuilder.build {T : Type} (b : DoodleBuilder T) (bk : Backend) :
    Except Error (Doodle T) :=
  match Renderer.new bk b.name b.width b.height with
  | Except.ok renderer =>
      Except.ok ⟨b.state, b.fps, b.setup, b.draw, renderer⟩
  | Except.error e => Except.error e

/-- A concrete canvas for witnesses. -/
def sampleCanvas : Canvas :=
  ⟨Color.RGB 0 0 0, [], []⟩

/-- A concrete renderer for witnesses. -/
def sampleRenderer : Renderer :=
  ⟨sampleCanvas, ⟨[]⟩, ()⟩

/-- A concrete backend whose every initialization step succeeds. -/
def sampleBackend : Backend :=
  { sdl_init := Except.ok ()
    image_init := Except.ok ()
    video := Except.ok ()
    window_build := fun _ _ _ => Except.ok ()
    canvas_build := Except.ok sampleCanvas
    event_pump := Except.ok ⟨[]⟩
    ttf_init := Except.ok () }

/-- A concrete backend whose window build step fails. -/
def failingBackend : Backend :=
  { sampleBackend with
    window_build := fun _ _ _ =>
      Except.error (Error.WindowBuildError "window build failed") }

/-- A concrete built doodle (trivial state and callbacks) for witnesses. -/
def sampleDoodle : Doodle Unit :=
  (((DoodleBuilder.new Unit).build sampleBackend).toOption).getD
    ⟨(), 30, fun s cv => (s, cv), fun s cv => (s, cv), sampleRenderer⟩

/-- One observable action of `Doodle::run`: the one-time setup call, a
`present` on the renderer, a draw-callback call, or a `clock.tick()`. -/
inductive RunAction where
  | setupCall : RunAction
  | presentCall : RunAction
  | drawCall : RunAction
  | tickCall : RunAction
deriving DecidableEq, Repr

/-- The `for event in pump.poll_iter()` loop body: consume queued events one
at a time; on `Event::Quit {..}` break immediately (`break 'main`), leaving
the events after it queued; ignore every other event.  Returns whether a
quit was drained, together with the events still queued. -/
def drain : List Event → Bool × List Event
  | [] => (false, [])
  | Event.quit :: rest => (true, rest)
  | Event.other _ :: rest => drain rest

/-- Outcome of running the main loop for a bounded number of iterations:
final state, final renderer, the trace of actions performed, and whether the
loop exited via `break 'main` (a drained quit event). -/
structure LoopResult (T : Type) where
  state : T
  renderer : Renderer
  trace : List RunAction
  quit : Bool

/-- The `'main: loop` of `Doodle::run`, observed for `fuel` iterations.
`arrivals` gives the events the environment has enqueued before each
iteration's poll; each iteration drains the pump (queued events plus the new
arrivals), breaks on a drained quit, and otherwise invokes the draw callback,
presents, and ticks the clock.  If `fuel` runs out the real loop is still
running (`quit = false`). -/
def runLoop {T : Type} (draw : Handler T) :
    Nat → List (List Event) → T → Renderer → LoopResult T
  | 0, _, st, r => ⟨st, r, [], false⟩
  | fuel + 1, arrivals, st, r =>
    let dres := drain (r.pump.queue ++ arrivals.headD [])
    let r1 : Renderer := { r with pump := ⟨dres.2⟩ }
    if dres.1 then ⟨st, r1, [], true⟩
    else
      let pr := draw st r1.canvas
      let r2 : Renderer := { r1 with canvas := pr.2.present }
      let rest := runLoop draw fuel arrivals.tail pr.1 r2
      ⟨rest.state, rest.renderer,
        RunAction.drawCall :: RunAction.presentCall :: RunAction.tickCall :: rest.trace,
        rest.quit⟩

/-- Outcome of `Doodle::run` observed for a bounded number of loop
iterations: `result = some (Except.ok ())` once the loop has broken on a
quit event (`run` returned `Ok(())`), `none` while it is still running. -/
structure RunResult (T : Type) where
  result : Option (Except Error Unit)
  state : T
  renderer : Renderer
  trace : List RunAction

/-- `Doodle::run`: create the fps clock, invoke setup once, present, then
enter the main loop. -/
def Doodle.run {T : Type} (d : Doodle T) (fuel : Nat)
    (arrivals : List (List Event)) : RunResult T :=
  let pr := d.setup d.state d.renderer.canvas
  let r1 : Renderer := { d.renderer with canvas := pr.2.present }
  let lr := runLoop d.draw fuel arrivals pr.1 r1
  ⟨if lr.quit then some (Except.ok ()) else none, lr.state, lr.renderer,
    RunAction.setupCall :: RunAction.presentCall :: lr.trace⟩

/-- The loop trace is a sequence of complete draw–present–tick blocks. -/
inductive Blocks : List RunAction → Prop
  | nil : Blocks []
  | cons (tr : List RunAction) : Blocks tr →
      Blocks (RunAction.drawCall :: RunAction.presentCall :: RunAction.tickCall :: tr)

/-- The state of `examples/simple.rs`: two `i16` fields, embedded as `Int`
(every value reached from the initial state stays inside the `i16` range). -/
structure SimpleState where
  change : Int
  color : Int
deriving DecidableEq, Repr

/-- Rust `x as u8` on an `i16`: the low 8 bits, a value in `[0, 255]`. -/
def asU8 (x : Int) : Nat :=
  (x % 256).toNat

/-- The draw closure of `examples/simple.rs`: remember the old color as a
`u8`, add `change` to `color`, clamp at 255 setting `change = -1`, clamp at
0 setting `change = 1`, then set the draw color to the grey of the old color
and clear. -/
def simpleDraw : Handler SimpleState := fun s cv =>
  let c := asU8 s.color
  let color1 := s.color + s.change
  let s2 : SimpleState :=
    if color1 > 255 then ⟨-1, 255⟩
    else if color1 < 0 then ⟨1, 0⟩
    else ⟨s.change, color1⟩
  (s2, (cv.set_draw_color (Color.RGB c c c)).clear)

/-- The state transformation of one draw-callback invocation (the state
component of `simpleDraw` does not depend on the canvas). -/
def simpleStep (s : SimpleState) : SimpleState :=
  (simpleDraw s sampleCanvas).1

/-- The state after `n` draw-callback invocations starting from the
configured initial state `{change: 1, color: 0}`. -/
def simpleIter (n : Nat) : SimpleState :=
  Nat.iterate simpleStep n ⟨1, 0⟩

theorem runLoop_blocks {T : Type} (draw : Handler T) :
    ∀ (fuel : Nat) (arrivals : List (List Event)) (st : T) (r : Renderer),
      Blocks (runLoop draw fuel arrivals st r).trace := by
  intro fuel
  induction fuel with
  | zero => intro arrivals st r; exact Blocks.nil
  | succ f ih =>
      intro arrivals st r
      show Blocks (runLoop draw (f + 1) arrivals st r).trace
      rw [runLoop]
      by_cases h : (drain (r.pump.queue ++ arrivals.headD [])).1
      · simp only [h, if_true]
        exact Blocks.nil
      · simp only [h, if_false]
        exact Blocks.cons _ (ih _ _ _)

theorem Blocks.count_setup {tr : List RunAction} (h : Blocks tr) :
    tr.count RunAction.setupCall = 0 := by
  induction h with
  | nil => rfl
  | cons tr _ ih => simp [List.count_cons, ih]

theorem Blocks.count_present_eq_draw {tr : List RunAction} (h : Blocks tr) :
    tr.count RunAction.presentCall = tr.count RunAction.drawCall := by
  induction h with
  | nil => rfl
  | cons tr _ ih => simp [List.count_cons, ih]

theorem Blocks.draw_succ_present {tr : List RunAction} (h : Blocks tr) :
    ∀ i, tr.get? i = some RunAction.drawCall → tr.get? (i + 1) = some RunAction.presentCall := by
  induction h with
  | nil => intro i hi; simp at hi
  | cons tr _ ih =>
      intro i hi
      match i, hi with
      | 0, hi => rfl
      | 1, hi => simp [List.get?] at hi
      | 2, hi => simp [List.get?] at hi
      | (j + 3), hi =>
          have : tr.get? j = some RunAction.drawCall := by simpa [List.get?] using hi
          simpa [List.get?] using ih j this

theorem drain_no_quit : ∀ (q : List Event), Event.quit ∉ q → drain q = (false, []) := by
  intro q
  induction q with
  | nil => intro _; rfl
  | cons e rest ih =>
      intro h
      match e with
      | Event.quit => exact absurd (List.mem_cons_self _ _) h
      | Event.other n =>
          have : Event.quit ∉ rest := fun hm => h (List.mem_cons_of_mem _ hm)
          simpa [drain] using ih this

theorem drain_first_quit :
    ∀ (l1 l2 : List Event), Event.quit ∉ l1 →
      drain (l1 ++ Event.quit :: l2) = (true, l2) := by
  intro l1
  induction l1 with
  | nil => intro l2 _; rfl
  | cons e rest ih =>
      intro l2 h
      match e with
      | Event.quit => exact absurd (List.mem_cons_self _ _) h
      | Event.other n =>
          have : Event.quit ∉ rest := fun hm => h (List.mem_cons_of_mem _ hm)
          simpa [drain] using ih l2 this

/-- Unfolding the loop one iteration when the pump is empty and the batch of
newly arrived events contains no quit: all events are drained and ignored,
then draw, present and tick happen, and the loop recurses. -/
theorem runLoop_step_no_quit {T : Type} (draw : Handler T) (f : Nat)
    (l : List Event) (rest : List (List Event)) (st : T) (cv : Canvas) (t : Unit)
    (hl : Event.quit ∉ l) :
    runLoop draw (f + 1) (l :: rest) st ⟨cv, ⟨[]⟩, t⟩ =
      ⟨(runLoop draw f rest (draw st cv).1 ⟨(draw st cv).2.present, ⟨[]⟩, t⟩).state,
       (runLoop draw f rest (draw st cv).1 ⟨(draw st cv).2.present, ⟨[]⟩, t⟩).renderer,
       RunAction.drawCall :: RunAction.presentCall :: RunAction.tickCall ::
         (runLoop draw f rest (draw st cv).1 ⟨(draw st cv).2.present, ⟨[]⟩, t⟩).trace,
       (runLoop draw f rest (draw st cv).1 ⟨(draw st cv).2.present, ⟨[]⟩, t⟩).quit⟩ := by
  have hd : drain l = (false, []) := drain_no_quit l hl
  rw [runLoop]
  simp [hd]

/-- Unfolding the loop one iteration when the pump is empty and the arrived
batch contains a quit: the loop breaks at the first quit, leaving the events
after it queued, performing no draw, and reporting termination. -/
theorem runLoop_step_quit {T : Type} (draw : Handler T) (f : Nat)
    (l1 l2 : List Event) (rest : List (List Event)) (st : T) (cv : Canvas) (t : Unit)
    (h1 : Event.quit ∉ l1) :
    runLoop draw (f + 1) ((l1 ++ Event.quit :: l2) :: rest) st ⟨cv, ⟨[]⟩, t⟩ =
      ⟨st, ⟨cv, ⟨l2⟩, t⟩, [], true⟩ := by
  have hd : drain (l1 ++ Event.quit :: l2) = (true, l2) := drain_first_quit l1 l2 h1
  rw [runLoop]
  simp [hd]

/-- C1: for every sketch, `run` invokes the setup callback exactly once, and
that invocation is strictly before the first invocation of the draw
callback. -/
theorem run_setup_once_before_draw {T : Type} (d : Doodle T) (fuel : Nat)
    (arrivals : List (List Event)) :
    (d.run fuel arrivals).trace.count RunAction.setupCall = 1 ∧
    (∀ i : Nat, (d.run fuel arrivals).trace.get? i = some RunAction.drawCall →
      ∃ j : Nat, j < i ∧ (d.run fuel arrivals).trace.get? j = some RunAction.setupCall) := by
  have hb : Blocks (runLoop d.draw fuel arrivals (d.setup d.state d.renderer.canvas).1
      { d.renderer with canvas := (d.setup d.state d.renderer.canvas).2.present }).trace :=
    runLoop_blocks d.draw fuel arrivals _ _
  constructor
  · show (RunAction.setupCall :: RunAction.presentCall :: _).count RunAction.setupCall = 1
    simp [List.count_cons, hb.count_setup]
  · intro i hi
    match i, hi with
    | 0, hi => exact absurd hi (by simp [Doodle.run])
    | (j + 1), hi => exact ⟨0, Nat.succ_pos j, rfl⟩

/-- Witness for C1: a concrete sketch run for two iterations. -/
theorem run_setup_once_before_draw_witness :
    (sampleDoodle.run 2 [[Event.other 3], [Event.quit]]).trace.count
        RunAction.setupCall = 1 ∧
    (sampleDoodle.run 2 [[Event.other 3], [Event.quit]]).trace.get? 2 =
        some RunAction.drawCall ∧
    (∃ j, j < 2 ∧ (sampleDoodle.run 2 [[Event.other 3], [Event.quit]]).trace.get? j =
        some RunAction.setupCall) :=
  ⟨(run_setup_once_before_draw sampleDoodle 2 [[Event.other 3], [Event.quit]]).1,
   by rfl,
   (run_setup_once_before_draw sampleDoodle 2 [[Event.other 3], [Event.quit]]).2 2
     (by rfl)⟩

/-- C2: `present` is called immediately after setup, hence at least once
before the first draw invocation, and exactly once after every draw
invocation (each draw is immediately followed by a present, and the number
of presents is one more than the number of draws). -/
theorem run_present_ordering {T : Type} (d : Doodle T) (fuel : Nat)
    (arrivals : List (List Event)) :
    (d.run fuel arrivals).trace.get? 1 = some RunAction.presentCall ∧
    (∀ i : Nat, (d.run fuel arrivals).trace.get? i = some RunAction.drawCall →
      ∃ j : Nat, j < i ∧ (d.run fuel arrivals).trace.get? j = some RunAction.presentCall) ∧
    (∀ i : Nat, (d.run fuel arrivals).trace.get? i = some RunAction.drawCall →
      (d.run fuel arrivals).trace.get? (i + 1) = some RunAction.presentCall) ∧
    (d.run fuel arrivals).trace.count RunAction.presentCall =
      1 + (d.run fuel arrivals).trace.count RunAction.drawCall := by
  have hb : Blocks (runLoop d.draw fuel arrivals (d.setup d.state d.renderer.canvas).1
      { d.renderer with canvas := (d.setup d.state d.renderer.canvas).2.present }).trace :=
    runLoop_blocks d.draw fuel arrivals _ _
  refine ⟨by rfl, ?_, ?_, ?_⟩
  · intro i hi
    match i, hi with
    | 0, hi => exact absurd hi (by simp [Doodle.run])
    | 1, hi => exact absurd hi (by simp [Doodle.run])
    | (j + 2), hi => exact ⟨1, by omega, by rfl⟩
  · intro i hi
    match i, hi with
    | 0, hi => exact absurd hi (by simp [Doodle.run])
    | 1, hi => exact absurd hi (by simp [Doodle.run])
    | (j + 2), hi =>
        have hj : (runLoop d.draw fuel arrivals (d.setup d.state d.renderer.canvas).1
            { d.renderer with
              canvas := (d.setup d.state d.renderer.canvas).2.present }).trace.get? j =
            some RunAction.drawCall := by
          simpa [Doodle.run] using hi
        have := hb.draw_succ_present j hj
        simpa [Doodle.run] using this
  · show (RunAction.setupCall :: RunAction.presentCall :: _).count RunAction.presentCall =
      1 + (RunAction.setupCall :: RunAction.presentCall :: _).count RunAction.drawCall
    simp [List.count_cons, hb.count_present_eq_draw, Nat.add_comm]

/-- Witness for C2: the same concrete sketch run for two iterations. -/
theorem run_present_ordering_witness :
    (sampleDoodle.run 2 [[Event.other 3], [Event.quit]]).trace.get? 1 =
        some RunAction.presentCall ∧
    (sampleDoodle.run 2 [[Event.other 3], [Event.quit]]).trace.get? 3 =
        some RunAction.presentCall ∧
    (sampleDoodle.run 2 [[Event.other 3], [Event.quit]]).trace.count
        RunAction.presentCall =
      1 + (sampleDoodle.run 2 [[Event.other 3], [Event.quit]]).trace.count
        RunAction.drawCall :=
  ⟨(run_present_ordering sampleDoodle 2 [[Event.other 3], [Event.quit]]).1,
   (run_present_ordering sampleDoodle 2 [[Event.other 3], [Event.quit]]).2.2.1 2
     (by rfl),
   (run_present_ordering sampleDoodle 2 [[Event.other 3], [Event.quit]]).2.2.2⟩

theorem first_quit_split :
    ∀ (q : List Event), Event.quit ∈ q →
      ∃ l1 l2, q = l1 ++ Event.quit :: l2 ∧ Event.quit ∉ l1 := by
  intro q
  induction q with
  | nil => intro h; simp at h
  | cons e rest ih =>
      intro h
      match e with
      | Event.quit => exact ⟨[], rest, rfl, by simp⟩
      | Event.other n =>
          have hr : Event.quit ∈ rest := by simpa using h
          obtain ⟨l1, l2, heq, hn⟩ := ih hr
          exact ⟨Event.other n :: l1, l2, by simp [heq], by simp [hn]⟩

/-- Running the loop through `pre.length` quit-free iterations and then an
iteration whose arrived batch contains a quit: the loop terminates via the
quit and the draw callback ran exactly once per quit-free iteration. -/
theorem runLoop_quit_run {T : Type} (draw : Handler T) :
    ∀ (pre : List (List Event)) (fuel : Nat) (qs : List Event)
      (post : List (List Event)) (st : T) (cv : Canvas) (t : Unit),
      (∀ l ∈ pre, Event.quit ∉ l) → Event.quit ∈ qs → pre.length < fuel →
      (runLoop draw fuel (pre ++ qs :: post) st ⟨cv, ⟨[]⟩, t⟩).quit = true ∧
      (runLoop draw fuel (pre ++ qs :: post) st ⟨cv, ⟨[]⟩, t⟩).trace.count
          RunAction.drawCall = pre.length := by
  intro pre
  induction pre with
  | nil =>
      intro fuel qs post st cv t hpre hq hfuel
      match fuel, hfuel with
      | (f + 1), _ =>
          obtain ⟨l1, l2, heq, hl1⟩ := first_quit_split qs hq
          rw [List.nil_append, heq, runLoop_step_quit draw f l1 l2 post st cv t hl1]
          exact ⟨rfl, rfl⟩
  | cons l pre ih =>
      intro fuel qs post st cv t hpre hq hfuel
      match fuel, hfuel with
      | (f + 1), hfuel =>
          have hl : Event.quit ∉ l := hpre l (List.mem_cons_self _ _)
          rw [List.cons_append,
            runLoop_step_no_quit draw f l (pre ++ qs :: post) st cv t hl]
          have hf : pre.length < f := by
            have := Nat.lt_of_succ_lt_succ (by simpa using hfuel)
            simpa using this
          obtain ⟨h1, h2⟩ := ih f qs post (draw st cv).1 ((draw st cv).2.present) t
            (fun x hx => hpre x (List.mem_cons_of_mem _ hx)) hq hf
          exact ⟨h1, by simp [List.count_cons, h2]⟩

/-- C3: if the pump starts empty, the first `pre.length` iterations see no
quit event and the next iteration's batch contains one, then `run` returns
`Ok(())` (never an error merely because the user quit) and the draw callback
was invoked exactly once per quit-free iteration — none in the quit
iteration or later. -/
theorem run_quit_semantics {T : Type} (d : Doodle T) (fuel : Nat)
    (pre : List (List Event)) (qs : List Event) (post : List (List Event))
    (hpump : d.renderer.pump.queue = [])
    (hpre : ∀ l ∈ pre, Event.quit ∉ l)
    (hq : Event.quit ∈ qs)
    (hfuel : pre.length < fuel) :
    (d.run fuel (pre ++ qs :: post)).result = some (Except.ok ()) ∧
    (d.run fuel (pre ++ qs :: post)).trace.count RunAction.drawCall =
      pre.length := by
  obtain ⟨st0, fps0, su0, dr0, ⟨cv0, ⟨q0⟩, t0⟩⟩ := d
  replace hpump : q0 = [] := hpump
  subst hpump
  obtain ⟨h1, h2⟩ := runLoop_quit_run dr0 pre fuel qs post (su0 st0 cv0).1
    ((su0 st0 cv0).2.present) t0 hpre hq hfuel
  constructor
  · show (if (runLoop dr0 fuel (pre ++ qs :: post) (su0 st0 cv0).1
        ⟨(su0 st0 cv0).2.present, ⟨[]⟩, t0⟩).quit then some (Except.ok ())
      else none) = some (Except.ok ())
    rw [h1]
    rfl
  · show (RunAction.setupCall :: RunAction.presentCall :: _).count
        RunAction.drawCall = pre.length
    simpa [List.count_cons] using h2

/-- Witness for C3: one quit-free iteration, then a batch carrying a quit. -/
theorem run_quit_semantics_witness :
    (sampleDoodle.run 3 [[Event.other 1], [Event.other 2, Event.quit],
        [Event.other 9]]).result = some (Except.ok ()) ∧
    (sampleDoodle.run 3 [[Event.other 1], [Event.other 2, Event.quit],
        [Event.other 9]]).trace.count RunAction.drawCall = 1 :=
  run_quit_semantics sampleDoodle 3 [[Event.other 1]] [Event.other 2, Event.quit]
    [[Event.other 9]] (by rfl) (by decide) (by decide) (by decide)

/-- C4 (amended): each iteration drains queued events one at a time before
any draw call of that iteration, stopping at the first quit signal.  A
quit-free batch is drained completely and has no effect whatsoever (the
iteration is identical to one with an empty batch); a batch with a quit
makes the loop exit immediately with no draw call, no change to state or
canvas, and the events after the first quit left queued undrained. -/
theorem run_event_drain_amended {T : Type} (draw : Handler T) (f : Nat)
    (l : List Event) (rest : List (List Event)) (st : T) (r : Renderer)
    (hpump : r.pump.queue = []) :
    (Event.quit ∉ l →
      runLoop draw (f + 1) (l :: rest) st r =
        runLoop draw (f + 1) ([] :: rest) st r) ∧
    (∀ l1 l2, l = l1 ++ Event.quit :: l2 → Event.quit ∉ l1 →
      (runLoop draw (f + 1) (l :: rest) st r).quit = true ∧
      (runLoop draw (f + 1) (l :: rest) st r).trace.count RunAction.drawCall = 0 ∧
      (runLoop draw (f + 1) (l :: rest) st r).renderer.pump.queue = l2 ∧
      (runLoop draw (f + 1) (l :: rest) st r).state = st ∧
      (runLoop draw (f + 1) (l :: rest) st r).renderer.canvas = r.canvas) := by
  obtain ⟨cv0, ⟨q0⟩, t0⟩ := r
  replace hpump : q0 = [] := hpump
  subst hpump
  constructor
  · intro hl
    rw [runLoop_step_no_quit draw f l rest st cv0 t0 hl,
      runLoop_step_no_quit draw f [] rest st cv0 t0 (by simp)]
  · intro l1 l2 heq hl1
    subst heq
    rw [runLoop_step_quit draw f l1 l2 rest st cv0 t0 hl1]
    exact ⟨rfl, rfl, rfl, rfl, rfl⟩

/-- Witness for C4 (amended): a quit-free batch behaves like an empty one,
and a batch with a leading quit stops the loop at once, leaving the tail of
the queue undrained. -/
theorem run_event_drain_amended_witness :
    (runLoop (fun (s : Unit) cv => (s, cv)) 1 [[Event.other 1]] () sampleRenderer =
      runLoop (fun (s : Unit) cv => (s, cv)) 1 [[]] () sampleRenderer) ∧
    (runLoop (fun (s : Unit) cv => (s, cv)) 1
        [[Event.quit, Event.other 7]] () sampleRenderer).renderer.pump.queue =
      [Event.other 7] :=
  ⟨(run_event_drain_amended (fun (s : Unit) cv => (s, cv)) 0 [Event.other 1] []
      () sampleRenderer (by rfl)).1 (by decide),
   ((run_event_drain_amended (fun (s : Unit) cv => (s, cv)) 0
      [Event.quit, Event.other 7] [] () sampleRenderer (by rfl)).2 []
      [Event.other 7] (by rfl) (by decide)).2.2.1⟩

/-- Counterexample to C4 as stated: with the batch `[quit, other 7]` queued,
the loop exits via the drained quit (`run` returns `Ok`), yet the event
after the quit is still queued — the iteration did not drain all currently
queued events. -/
theorem run_event_drain_counterexample :
    (sampleDoodle.run 1 [[Event.quit, Event.other 7]]).result =
        some (Except.ok ()) ∧
    (sampleDoodle.run 1 [[Event.quit, Event.other 7]]).renderer.pump.queue =
        [Event.other 7] ∧
    (sampleDoodle.run 1 [[Event.quit, Event.other 7]]).renderer.pump.queue ≠
        [] := by
  have hq : (sampleDoodle.run 1 [[Event.quit, Event.other 7]]).renderer.pump.queue
      = [Event.other 7] := by rfl
  refine ⟨by rfl, hq, ?_⟩
  rw [hq]
  simp

/-- C7: `build` either returns a fully initialized runtime holding the
configured state, callbacks, fps and the initialized renderer, or, on any
backend initialization failure, propagates exactly that construction error
with no partial handoff. -/
theorem build_all_or_nothing {T : Type} (b : DoodleBuilder T) (bk : Backend) :
    (∀ r : Renderer, Renderer.new bk b.name b.width b.height = Except.ok r →
      b.build bk = Except.ok ⟨b.state, b.fps, b.setup, b.draw, r⟩) ∧
    (∀ e : Error, Renderer.new bk b.name b.width b.height = Except.error e →
      b.build bk = Except.error e) := by
  constructor
  · intro r h
    simp [DoodleBuilder.build, h]
  · intro e h
    simp [DoodleBuilder.build, h]

/-- Witness for C7: an all-ok backend yields the full runtime, a backend
whose window build fails yields exactly its error. -/
theorem build_all_or_nothing_witness :
    (DoodleBuilder.new Unit).build sampleBackend =
      Except.ok ⟨(), 30, (DoodleBuilder.new Unit).setup,
        (DoodleBuilder.new Unit).draw, sampleRenderer⟩ ∧
    (DoodleBuilder.new Unit).build failingBackend =
      Except.error (Error.WindowBuildError "window build failed") :=
  ⟨(build_all_or_nothing (DoodleBuilder.new Unit) sampleBackend).1
      sampleRenderer (by rfl),
   (build_all_or_nothing (DoodleBuilder.new Unit) failingBackend).2
      (Error.WindowBuildError "window build failed") (by rfl)⟩

/-- C10: the core validates nothing: `fps`, `width` and `height` store any
`u32` value unchanged, zero included, and `build` hands the stored values to
the backend as they are — its outcome is exactly the backend's outcome, so
a zero fps or zero dimensions never produce a core-raised error. -/
theorem no_core_validation {T : Type} (b : DoodleBuilder T) (v : Nat)
    (hv : v < 2 ^ 32) (bk : Backend) :
    (b.setFps v).fps = v ∧ (b.setWidth v).width = v ∧
    (b.setHeight v).height = v ∧
    (((b.setFps v).setWidth v).setHeight v).build bk =
      Except.map (fun r => (⟨b.state, v, b.setup, b.draw, r⟩ : Doodle T))
        (Renderer.new bk b.name v v) := by
  refine ⟨rfl, rfl, rfl, ?_⟩
  show (match Renderer.new bk b.name v v with
    | Except.ok renderer =>
        Except.ok (⟨b.state, v, b.setup, b.draw, renderer⟩ : Doodle T)
    | Except.error e => Except.error e) =
    Except.map (fun r => (⟨b.state, v, b.setup, b.draw, r⟩ : Doodle T))
      (Renderer.new bk b.name v v)
  cases Renderer.new bk b.name v v with
  | ok r => rfl
  | error e => rfl

/-- Witness for C10: fps 0 and zero dimensions build successfully against a
backend that accepts them. -/
theorem no_core_validation_witness :
    ((DoodleBuilder.new Unit).setFps 0).fps = 0 ∧
    (((((DoodleBuilder.new Unit).setFps 0).setWidth 0).setHeight 0).build
        sampleBackend) =
      Except.map (fun r => (⟨(), 0, (DoodleBuilder.new Unit).setup,
          (DoodleBuilder.new Unit).draw, r⟩ : Doodle Unit))
        (Renderer.new sampleBackend "Doodle" 0 0) :=
  ⟨(no_core_validation (DoodleBuilder.new Unit) 0 (by decide) sampleBackend).1,
   (no_core_validation (DoodleBuilder.new Unit) 0 (by decide) sampleBackend).2.2.2⟩

/-- C5: building with no setters applied yields width 800, height 600,
fps 30, the placeholder title "Doodle", the default-constructed state, and
no-op setup and draw callbacks. -/
theorem builder_defaults (T : Type) [Inhabited T] :
    (DoodleBuilder.new T).width = 800 ∧
    (DoodleBuilder.new T).height = 600 ∧
    (DoodleBuilder.new T).fps = 30 ∧
    (DoodleBuilder.new T).name = "Doodle" ∧
    (DoodleBuilder.new T).state = default ∧
    (∀ (s : T) (cv : Canvas), (DoodleBuilder.new T).setup s cv = (s, cv)) ∧
    (∀ (s : T) (cv : Canvas), (DoodleBuilder.new T).draw s cv = (s, cv)) :=
  ⟨rfl, rfl, rfl, rfl, rfl, fun _ _ => rfl, fun _ _ => rfl⟩

/-- C6: every setter is overridable with last-write-wins semantics (applying
it twice equals applying only the second call), stores exactly the given
value, and changes no other field of the builder. -/
theorem builder_setters_overridable {T : Type} (b : DoodleBuilder T)
    (n1 n2 : String) (v1 v2 w1 w2 f1 f2 : Nat) (s1 s2 : T) (h1 h2 g1 g2 : Handler T) :
    ((b.setName n1).setName n2 = b.setName n2 ∧
     (b.setWidth v1).setWidth v2 = b.setWidth v2 ∧
     (b.setHeight w1).setHeight w2 = b.setHeight w2 ∧
     (b.setFps f1).setFps f2 = b.setFps f2 ∧
     (b.setState s1).setState s2 = b.setState s2 ∧
     (b.setSetup h1).setSetup h2 = b.setSetup h2 ∧
     (b.setDraw g1).setDraw g2 = b.setDraw g2) ∧
    ((b.setName n1).name = n1 ∧
     (b.setWidth v1).width = v1 ∧
     (b.setHeight w1).height = w1 ∧
     (b.setFps f1).fps = f1 ∧
     (b.setState s1).state = s1 ∧
     (b.setSetup h1).setup = h1 ∧
     (b.setDraw g1).draw = g1) ∧
    ((b.setWidth v1).name = b.name ∧
     (b.setWidth v1).height = b.height ∧
     (b.setWidth v1).fps = b.fps ∧
     (b.setWidth v1).state = b.state ∧
     (b.setWidth v1).setup = b.setup ∧
     (b.setWidth v1).draw = b.draw) ∧
    ((b.setFps f1).name = b.name ∧
     (b.setFps f1).width = b.width ∧
     (b.setFps f1).height = b.height ∧
     (b.setFps f1).state = b.state ∧
     (b.setFps f1).setup = b.setup ∧
     (b.setFps f1).draw = b.draw) ∧
    ((b.setHeight w1).name = b.name ∧
     (b.setHeight w1).width = b.width ∧
     (b.setHeight w1).fps = b.fps ∧
     (b.setHeight w1).state = b.state ∧
     (b.setHeight w1).setup = b.setup ∧
     (b.setHeight w1).draw = b.draw) ∧
    ((b.setName n1).width = b.width ∧
     (b.setName n1).height = b.height ∧
     (b.setName n1).fps = b.fps ∧
     (b.setName n1).state = b.state ∧
     (b.setName n1).setup = b.setup ∧
     (b.setName n1).draw = b.draw) ∧
    ((b.setState s1).name = b.name ∧
     (b.setState s1).width = b.width ∧
     (b.setState s1).height = b.height ∧
     (b.setState s1).fps = b.fps ∧
     (b.setState s1).setup = b.setup ∧
     (b.setState s1).draw = b.draw) ∧
    ((b.setSetup h1).name = b.name ∧
     (b.setSetup h1).width = b.width ∧
     (b.setSetup h1).height = b.height ∧
     (b.setSetup h1).state = b.state ∧
     (b.setSetup h1).fps = b.fps ∧
     (b.setSetup h1).draw = b.draw) ∧
    ((b.setDraw g1).name = b.name ∧
     (b.setDraw g1).width = b.width ∧
     (b.setDraw g1).height = b.height ∧
     (b.setDraw g1).state = b.state ∧
     (b.setDraw g1).fps = b.fps ∧
     (b.setDraw g1).setup = b.setup) :=
  ⟨⟨rfl, rfl, rfl, rfl, rfl, rfl, rfl⟩,
   ⟨rfl, rfl, rfl, rfl, rfl, rfl, rfl⟩,
   ⟨rfl, rfl, rfl, rfl, rfl, rfl⟩,
   ⟨rfl, rfl, rfl, rfl, rfl, rfl⟩,
   ⟨rfl, rfl, rfl, rfl, rfl, rfl⟩,
   ⟨rfl, rfl, rfl, rfl, rfl, rfl⟩,
   ⟨rfl, rfl, rfl, rfl, rfl, rfl⟩,
   ⟨rfl, rfl, rfl, rfl, rfl, rfl⟩,
   ⟨rfl, rfl, rfl, rfl, rfl, rfl⟩⟩

/-- Witness for C6 at the spec's concrete input: width 800 then width 600
gives final width 600. -/
theorem builder_setters_overridable_witness :
    ((DoodleBuilder.new Unit).setWidth 800).setWidth 600 =
      (DoodleBuilder.new Unit).setWidth 600 ∧
    (((DoodleBuilder.new Unit).setWidth 800).setWidth 600).width = 600 :=
  ⟨(builder_setters_overridable (DoodleBuilder.new Unit) "a" "b" 800 600 1 2 3 4 () ()
      (fun s cv => (s, cv)) (fun s cv => (s, cv)) (fun s cv => (s, cv))
      (fun s cv => (s, cv))).1.2.1,
   by rfl⟩

/-- C9: `set_draw_color` / `draw_color` round-trip on the renderer, and
`clear` and `present` leave the current draw color unchanged. -/
theorem renderer_draw_color_roundtrip (r : Renderer) (c : Color) :
    (r.set_draw_color c).draw_color = c ∧
    r.clear.draw_color = r.draw_color ∧
    (Renderer.present r).draw_color = r.draw_color :=
  ⟨rfl, rfl, rfl⟩

theorem simpleIter_closed_form :
    ∀ n : Nat, n ≤ 255 → simpleIter n = ⟨1, (n : Int)⟩ := by
  intro n
  induction n with
  | zero => intro _; rfl
  | succ k ih =>
      intro h
      have hk : k ≤ 255 := Nat.le_of_succ_le h
      have hstep : simpleIter (k + 1) = simpleStep (simpleIter k) := by
        rw [simpleIter, simpleIter, Function.iterate_succ_apply']
      rw [hstep, ih hk]
      have hub : k ≤ 254 := by omega
      have h1 : ¬((k : Int) + 1 > 255) := by
        have hc : (k : Int) ≤ 254 := by exact_mod_cast hub
        omega
      have h2 : ¬((k : Int) + 1 < 0) := by
        have hc : (0 : Int) ≤ (k : Int) := Int.ofNat_nonneg k
        omega
      show simpleStep ⟨1, (k : Int)⟩ = ⟨1, ((k + 1 : Nat) : Int)⟩
      have hcast : ((k + 1 : Nat) : Int) = (k : Int) + 1 := by push_cast; ring
      rw [hcast]
      simp [simpleStep, simpleDraw, h1, h2]

/-- C8: the state component of the example's draw closure is canvas
independent; starting from `{change: 1, color: 0}`, after `n ≤ 255`
invocations the state is `{change: 1, color: n}` (color climbs from 0 to
255), after 256 invocations it is `{change: -1, color: 255}`, and the sign
of `change` flips exactly once: never during the first 255 invocations,
once at invocation 255 (0-indexed), the 256th. -/
theorem simple_draw_trajectory :
    (∀ (s : SimpleState) (cv : Canvas), (simpleDraw s cv).1 = simpleStep s) ∧
    (∀ n : Nat, n ≤ 255 → simpleIter n = ⟨1, (n : Int)⟩) ∧
    simpleIter 256 = ⟨-1, 255⟩ ∧
    (∀ n : Nat, n < 255 →
      (simpleIter (n + 1)).change = (simpleIter n).change) ∧
    (simpleIter 256).change ≠ (simpleIter 255).change := by
  have h255 : simpleIter 255 = ⟨1, 255⟩ := by
    simpa using simpleIter_closed_form 255 (by omega)
  have h256 : simpleIter 256 = ⟨-1, 255⟩ := by
    have hstep : simpleIter 256 = simpleStep (simpleIter 255) := by
      rw [simpleIter, simpleIter, Function.iterate_succ_apply']
    rw [hstep, h255]
    decide
  refine ⟨fun s cv => rfl, simpleIter_closed_form, h256, ?_, ?_⟩
  · intro n hn
    have e1 := simpleIter_closed_form (n + 1) (by omega)
    have e2 := simpleIter_closed_form n (by omega)
    rw [e1, e2]
  · rw [h255, h256]
    decide

/-- Witness for C8: concrete frames of the example sketch. -/
theorem simple_draw_trajectory_witness :
    (255 ≤ 255 ∧ simpleIter 255 = ⟨1, 255⟩) ∧
    (2 < 255 ∧ (simpleIter 3).change = (simpleIter 2).change) :=
  ⟨⟨by omega, by simpa using simple_draw_trajectory.2.1 255 (by omega)⟩,
   ⟨by omega, simple_draw_trajectory.2.2.2.1 2 (by omega)⟩⟩
